import Mathlib

set_option linter.all false

/-!
Verification development for the duffel Go API client
(github.com/thetreep/duffel).  Pure fragments of the source are embedded
as executable Lean definitions; the request/response pipeline pieces that
the repository's resource files call into (the pagination iterator, the
error decoder, the rate-limit gate) are modelled from the specification
where their source file is not part of the repository snapshot, and each
such definition is marked `Modelled from the spec:` in its doc comment.
-/

namespace Duffel

/-- Outcome of a Go function call: a normal value, a returned `error`, or a
runtime panic (an unrecovered panic terminates the process). -/
inductive GoResult (α : Type) where
  | ok : α → GoResult α
  | err : String → GoResult α
  | panicked : String → GoResult α
deriving DecidableEq, Repr

/-- Go's `strings.HasPrefix(s, p)`, modelled on the character lists of the
two strings (byte-level and character-level "starts with" agree on valid
UTF-8 strings because the encoding is a prefix code). -/
def goHasPrefix (s p : String) : Bool :=
  p.data.isPrefixOf s.data

/-- Decidable equality for `Except` results, so scenario equalities can
be settled by evaluation. -/
instance exceptDecEq {ε α : Type} [DecidableEq ε] [DecidableEq α] :
    DecidableEq (Except ε α) := fun x y =>
  match x, y with
  | .ok a, .ok b =>
    if h : a = b then .isTrue (by rw [h]) else .isFalse (by simpa using h)
  | .ok _, .error _ => .isFalse (by simp)
  | .error _, .ok _ => .isFalse (by simp)
  | .error a, .error b =>
    if h : a = b then .isTrue (by rw [h]) else .isFalse (by simpa using h)

/-! ## Pagination iterator (spec §4.5)

The iterator lives in the repository's generic client file, which is not
part of the snapshot under `src/`; only its callers are.  It is modelled
from the spec's state machine: `Ready` (cursor set, no fetch yet),
`Holding` (a decoded page buffered), `Exhausted` and `Failed` (terminal).
`κ` is the opaque server-issued cursor type, `α` the item type. -/

/-- One decoded page of a paginated response: the `data` sequence plus the
`meta.after` cursor (`none` models the absent/empty cursor of the last
page). -/
structure PageResp (κ α : Type) where
  data : List α
  after : Option κ
deriving DecidableEq, Repr

/-- Modelled from the spec: the pagination iterator's states.  `ready c`
holds the cursor for the next page fetch (`none` = first page, before any
cursor was issued); `holding buf next` buffers the not-yet-consumed items
of the current page together with the next cursor, if any. -/
inductive IterStatus (κ α : Type) where
  | ready : Option κ → IterStatus κ α
  | holding : List α → Option κ → IterStatus κ α
  | exhausted : IterStatus κ α
  | failed : String → IterStatus κ α
deriving DecidableEq, Repr

/-- Modelled from the spec: an iterator value is a state plus an
instrumentation counter of how many page fetches it has issued. -/
structure Iter (κ α : Type) where
  status : IterStatus κ α
  fetches : Nat
deriving DecidableEq, Repr

/-- Fresh iterator: no cursor yet, no fetch issued. -/
def Iter.init {κ α : Type} : Iter κ α := ⟨.ready none, 0⟩

/-- Modelled from the spec: an already-failed iterator, as produced by the
client's `ErrIter` constructor for validation errors; it has issued no
fetch. -/
def ErrIter (κ α : Type) (e : String) : Iter κ α := ⟨.failed e, 0⟩

/-- Error accessor (`Err()` in Go): the held error of a failed iterator. -/
def Iter.errOut {κ α : Type} : Iter κ α → Option String
  | ⟨.failed e, _⟩ => some e
  | _ => none

/-- State an iterator lands in once the current page's buffer is drained:
with no further cursor it is exhausted, otherwise it is ready to fetch at
the new cursor. -/
def termState {κ α : Type} (next : Option κ) (n : Nat) : Iter κ α :=
  match next with
  | none => ⟨.exhausted, n⟩
  | some c => ⟨.ready (some c), n⟩

/-- Deliver one item from a freshly decoded or buffered page: pop the head
(if any) and move to the follow-up state.  `n` is the fetch counter. -/
def deliver {κ α : Type} : List α → Option κ → Nat → Option α × Iter κ α
  | [], next, n => (none, termState next n)
  | x :: rest, next, n =>
    (some x, if rest.isEmpty then termState next n else ⟨.holding rest next, n⟩)

/-- Modelled from the spec: one advance of the iterator.  A buffered item
is popped with no I/O; an empty buffer triggers a page fetch at the held
cursor; terminal states stay put and report no item. -/
def advance {κ α : Type} (fetch : Option κ → Except String (PageResp κ α)) :
    Iter κ α → Option α × Iter κ α
  | ⟨.ready cur, n⟩ =>
    match fetch cur with
    | .error e => (none, ⟨.failed e, n + 1⟩)
    | .ok p => deliver p.data p.after (n + 1)
  | ⟨.holding buf next, n⟩ => deliver buf next n
  | ⟨.exhausted, n⟩ => (none, ⟨.exhausted, n⟩)
  | ⟨.failed e, n⟩ => (none, ⟨.failed e, n⟩)

/-- Run `k` advances, collecting the items they yield in order. -/
def consume {κ α : Type} (fetch : Option κ → Except String (PageResp κ α)) :
    Nat → Iter κ α → List α × Iter κ α
  | 0, s => ([], s)
  | k + 1, s =>
    let step := advance fetch s
    let rest := consume fetch k step.2
    (step.1.toList ++ rest.1, rest.2)

/-- An iterator holds unread buffered items. -/
def Iter.hasBuffered {κ α : Type} (it : Iter κ α) : Prop :=
  ∃ x rest next, it.status = .holding (x :: rest) next

/-- Scenario server for the exhaustion claim: the server's remaining pages
are encoded in the opaque cursor itself (the cursor is never inspected by
the iterator, only echoed back).  The initial fetch (`none`) serves the
first of all pages; a cursor serves the pages it encodes; every page but
the last carries the cursor of its successor. -/
def pagesFetch {α : Type} (pages : List (List α)) :
    Option (List (List α)) → Except String (PageResp (List (List α)) α) :=
  fun cur =>
    match cur.getD pages with
    | [] => .error "no such page"
    | p :: rest => .ok ⟨p, if rest.isEmpty then none else some rest⟩

/-- Scenario server for the failure claim: the first fetch succeeds with
page `p1` and a cursor, the second fetch (at that cursor) fails with `e`. -/
def failFetch {α : Type} (p1 : List α) (e : String) :
    Option Unit → Except String (PageResp Unit α) :=
  fun cur =>
    match cur with
    | none => .ok ⟨p1, some ()⟩
    | some _ => .error e

/-! ## Rate limiting

`parseRateLimit` is embedded from the source (ratelimit file of the
snapshot).  Go's `time.Time` instants are modelled as integers
(nanoseconds since Go's zero time), so the zero `time.Time` is `0` and
`Time.IsZero` is `= 0`; `time.Duration` is an integer difference.
`strconv.Atoi` and `time.Parse` belong to Go's standard library, so they
appear as parameters (`atoi`, `parseTime`) constrained only by their
`Except`-shaped signatures. -/

/-- Go's `time.RFC1123` layout string. -/
def rfc1123 : String := "Mon, 02 Jan 2006 15:04:05 MST"

/-- Second accepted layout of the source: a single-digit day variant some
servers emit. -/
def flexDayFormat : String := "Mon, 2 Jan 2006 15:04:05 MST"

/-- headerTimeFormats from the source: the accepted layouts for the
`Ratelimit-Reset` header, tried in order. -/
def headerTimeFormats : List String :=
  [rfc1123, flexDayFormat]

/-- RateLimit from the source: the decoded rate-limit bookkeeping state. -/
structure RateLimit where
  limit : Int
  remaining : Int
  resetAt : Int
  period : Int
deriving DecidableEq, Repr

/-- Response headers consumed by the rate-limit bookkeeping
(`resp.Header.Get` of an absent header returns the empty string, so a
missing header is simply the empty string here). -/
structure RateHeaders where
  ratelimitLimit : String
  ratelimitRemaining : String
  ratelimitReset : String
  date : String
deriving DecidableEq, Repr

/-- Embedded from the source: `parseRateLimit`.  It decodes
`Ratelimit-Limit` and `Ratelimit-Remaining` with `atoi`, sets `ResetAt`
to the first accepted layout that parses `Ratelimit-Reset` (leaving the
zero instant when none does), errors when `ResetAt` is still the zero
instant, then derives `Period` as `ResetAt` minus the parsed `Date`
header. -/
def parseRateLimit (atoi : String → Except String Int)
    (parseTime : String → String → Except String Int)
    (h : RateHeaders) : Except String RateLimit :=
  match atoi h.ratelimitLimit with
  | .error e => .error e
  | .ok limit =>
    match atoi h.ratelimitRemaining with
    | .error e => .error e
    | .ok remaining =>
      let resetAt :=
        (headerTimeFormats.findSome? fun format =>
          (parseTime format h.ratelimitReset).toOption).getD 0
      if resetAt = 0 then
        .error ("failed to parse Ratelimit-Reset header: " ++ h.ratelimitReset ++
          ", no known date formats match")
      else
        match parseTime rfc1123 h.date with
        | .error e => .error e
        | .ok date => .ok ⟨limit, remaining, resetAt, resetAt - date⟩

/-- Modelled from the spec: the bookkeeping step run after every response
(its caller lives in the generic client file, absent from the snapshot).
On a parse failure the previously stored state is kept and the enclosing
call still succeeds; the returned flag records that the call succeeded. -/
def updateRateLimitState (atoi : String → Except String Int)
    (parseTime : String → String → Except String Int)
    (h : RateHeaders) (prev : Option RateLimit) : Option RateLimit × Bool :=
  match parseRateLimit atoi parseTime h with
  | .error _ => (prev, true)
  | .ok rl => (some rl, true)

/-- Modelled from the spec: the pre-call gate of the rate limiter.  With
no remaining budget and the reset instant still ahead, the caller sleeps
until the reset instant; otherwise no delay is introduced. -/
def rateLimitDelay (rl : RateLimit) (now : Int) : Int :=
  if rl.remaining = 0 ∧ now < rl.resetAt then rl.resetAt - now else 0

/-- Instant at which the gated call actually proceeds. -/
def proceedAt (rl : RateLimit) (now : Int) : Int :=
  now + rateLimitDelay rl now

/-! ## Error decoding and single-result execution (spec §4.3, §4.4)

The generic executor and error decoder live in the client file absent
from the snapshot; they are modelled from the spec and from the
repository's own client test. -/

/-- One decoded object of the `errors` array of an error envelope. -/
structure APIError where
  typ : String
  code : String
  title : String
  message : String
deriving DecidableEq, Repr

/-- Modelled from the spec: the single generic error synthesized when a
non-2xx response carries no `errors` array (or an empty one); a fixed
"unknown error" message tagged with nothing server-specific. -/
def syntheticError : APIError :=
  ⟨"unknown_error", "unknown_error", "Unknown error", "An unknown error occurred"⟩

/-- Modelled from the spec: the structured error the decoder produces for
a non-2xx response: the originating status and the decoded error objects
(all retained; the first is primary). -/
structure DuffelError where
  statusCode : Nat
  errors : List APIError
deriving DecidableEq, Repr

/-- Modelled from the spec: the error decoder.  A present, non-empty
`errors` array is retained as decoded; otherwise one synthesized generic
error stands in, so the decoder always produces some structured error. -/
def decodeError (status : Nat) (errs : Option (List APIError)) : DuffelError :=
  match errs with
  | some (e :: rest) => ⟨status, e :: rest⟩
  | _ => ⟨status, [syntheticError]⟩

/-- Primary error object of a structured error: the first one (the
decoder never produces an empty list, but the fallback mirrors the
synthesized defaults so classification works on any value). -/
def DuffelError.primary (e : DuffelError) : APIError :=
  e.errors.headD syntheticError

/-- Taxonomy-type classification query (`IsType` in Go). -/
def DuffelError.IsType (e : DuffelError) (t : String) : Bool :=
  e.primary.typ == t

/-- Fine-grained-code classification query (`IsCode` in Go). -/
def DuffelError.IsCode (e : DuffelError) (c : String) : Bool :=
  e.primary.code == c

/-- Rendering of a structured error to a human-readable string
(`Error()` in Go): a fixed template around the primary message, as pinned
by the repository's client test. -/
def DuffelError.render (e : DuffelError) : String :=
  "duffel: " ++ e.primary.message

/-- Taxonomy constant for airline-facing errors (`AirlineError`). -/
def AirlineError : String := "airline_error"

/-- Fine-grained code constant `AirlineUnknown`. -/
def AirlineUnknown : String := "airline_unknown"

/-- A call failure: either a structured server-reported error that went
through the decoder, or a client-local decode failure of a 2xx body. -/
inductive CallError where
  | api : DuffelError → CallError
  | decodeFailure : CallError
deriving DecidableEq, Repr

/-- An HTTP response as seen after JSON decoding: the status code, the
decoded `data` field when present and well-formed for the target schema
`τ`, and the decoded `errors` array when present. -/
structure Response (τ : Type) where
  status : Nat
  data : Option τ
  errors : Option (List APIError)

/-- Modelled from the spec: `Single`.  A 2xx response decodes its `data`
field into the target type (a missing or ill-formed `data` is a
client-local decode failure); a non-2xx response is passed through the
error decoder and its result returned as the error. -/
def Single {τ : Type} (r : Response τ) : Except CallError τ :=
  if 200 ≤ r.status ∧ r.status ≤ 299 then
    match r.data with
    | some v => .ok v
    | none => .error .decodeFailure
  else
    .error (.api (decodeError r.status r.errors))

/-- Go's `strconv.FormatBool`. -/
def formatBool (b : Bool) : String :=
  if b then "true" else "false"

/-- url.Values.Set: replace every pair under the key by the single new
value (the mapping is modelled as an association list). -/
def urlValuesSet (q : List (String × String)) (k v : String) :
    List (String × String) :=
  (q.filter fun kv => kv.1 ≠ k) ++ [(k, v)]

/-- OfferRequestInput, restricted to the only field its query-encoding
capability reads (the other fields are JSON body fields). -/
structure OfferRequestInput where
  ReturnOffers : Bool
deriving DecidableEq, Repr

/-- Embedded from the source: `OfferRequestInput.Encode`, which always
sets `return_offers` to `strconv.FormatBool(o.ReturnOffers)`. -/
def OfferRequestInput.Encode (o : OfferRequestInput)
    (q : List (String × String)) : List (String × String) :=
  urlValuesSet q "return_offers" (formatBool o.ReturnOffers)

/-! ## Resource operations with ID validation

These operations are embedded from the source (the order-change,
order-cancellation and offer files of the snapshot).  The HTTP part of a
call is an abstract collaborator (`perform`), so an outcome records the
returned value, the returned error, and whether an HTTP request was
issued at all. -/

/-- Outcome of one client operation against an abstract HTTP
collaborator. -/
structure OpOutcome (α : Type) where
  result : Option α
  error : Option String
  httpIssued : Bool
deriving DecidableEq, Repr

/-- Embedded from the source: `validateID(id, prefix)`.  An empty ID and
an ID not carrying the required resource tag are both rejected. -/
def validateID (id pfx : String) : Option String :=
  if id = "" then some "id param is required"
  else if ¬ goHasPrefix id pfx then some ("id should begin with " ++ pfx)
  else none

/-- Required ID tag `ocr_` (orderChangeRequestIDPrefix in the source). -/
def orderChangeRequestIDPfx : String := "ocr_"

/-- Required ID tag `oco_` (orderChangeOfferIDPrefix in the source). -/
def orderChangeOfferIDPfx : String := "oco_"

/-- Required ID tag `oce_` (orderChangeIDPrefix in the source). -/
def orderChangeIDPfx : String := "oce_"

/-- Required ID tag `orq_` (offerRequestIDPrefix in the source). -/
def offerRequestIDPfx : String := "orq_"

/-- Required ID tag `ore_` (orderCancellationIDPrefix in the source). -/
def orderCancellationIDPfx : String := "ore_"

/-- Shared shape of the ID-validated operations: validate first and fail
with a nil result before any HTTP request; only a valid ID reaches the
collaborator. -/
def runIDValidated {α : Type} (pfx : String) (perform : Unit → α)
    (id : String) : OpOutcome α :=
  match validateID id pfx with
  | some e => ⟨none, some e, false⟩
  | none => ⟨some (perform ()), none, true⟩

/-- Embedded from the source: `GetOrderChangeRequest` validates against
`ocr_` before building its request. -/
def GetOrderChangeRequest {α : Type} (perform : Unit → α)
    (orderChangeRequestID : String) : OpOutcome α :=
  runIDValidated orderChangeRequestIDPfx perform orderChangeRequestID

/-- Embedded from the source: `CreatePendingOrderChange` validates its
offer ID against `oco_` before building its request. -/
def CreatePendingOrderChange {α : Type} (perform : Unit → α)
    (offerID : String) : OpOutcome α :=
  runIDValidated orderChangeOfferIDPfx perform offerID

/-- Embedded from the source: `ConfirmOrderChange` validates against
`ocr_` before building its request. -/
def ConfirmOrderChange {α : Type} (perform : Unit → α)
    (orderChangeRequestID : String) : OpOutcome α :=
  runIDValidated orderChangeRequestIDPfx perform orderChangeRequestID

/-- Embedded from the source: `GetOrderChange` validates against `oce_`
before building its request. -/
def GetOrderChange {α : Type} (perform : Unit → α) (id : String) :
    OpOutcome α :=
  runIDValidated orderChangeIDPfx perform id

/-- Embedded from the source: `GetOrderChangeOffer` validates against
`oco_` before building its request. -/
def GetOrderChangeOffer {α : Type} (perform : Unit → α) (id : String) :
    OpOutcome α :=
  runIDValidated orderChangeOfferIDPfx perform id

/-- Embedded from the source: the validation prelude of `ListOffers` (its
checks are inlined in the source rather than calling `validateID`).  An
invalid offer-request ID yields an `ErrIter`; a valid one yields a fresh
iterator for the offers listing, with no fetch issued yet. -/
def ListOffers (κ α : Type) (offerRequestID : String) : Iter κ α :=
  if offerRequestID = "" then
    ErrIter κ α "offerRequestId param is required"
  else if ¬ goHasPrefix offerRequestID offerRequestIDPfx then
    ErrIter κ α ("offerRequestId should begin with " ++ offerRequestIDPfx)
  else
    Iter.init

/-- Embedded from the source: the ID-validation prelude shared by
`ConfirmOrderCancellation` and `GetOrderCancellation`.  When the `ore_`
check fails, the Go code formats `orderCancellationID[:4]` into the error
message; Go string slicing panics with "slice bounds out of range" when
the string is shorter than 4 bytes, so that branch is a runtime panic,
not a returned error.  (`String.take` stands in for the byte slice in the
message text; the bounds check itself uses the byte length, as in Go.) -/
def orderCancellationIDCheck (orderCancellationID : String) : GoResult Unit :=
  if ¬ goHasPrefix orderCancellationID orderCancellationIDPfx then
    if orderCancellationID.utf8ByteSize < 4 then
      .panicked "runtime error: slice bounds out of range"
    else
      .err ("orderCancellationID should have prefix " ++ orderCancellationIDPfx ++
        ", got " ++ orderCancellationID.take 4)
  else
    .ok ()

/-- Embedded from the source: `ConfirmOrderCancellation`, with the HTTP
part abstract.  A failed check returns before any request; a short
invalid ID propagates the runtime panic. -/
def ConfirmOrderCancellation {α : Type} (perform : Unit → GoResult α)
    (orderCancellationID : String) : GoResult α :=
  match orderCancellationIDCheck orderCancellationID with
  | .ok _ => perform ()
  | .err e => .err e
  | .panicked m => .panicked m

/-- Embedded from the source: `GetOrderCancellation`, with the HTTP part
abstract; it shares the validation prelude of `ConfirmOrderCancellation`. -/
def GetOrderCancellation {α : Type} (perform : Unit → GoResult α)
    (orderCancellationID : String) : GoResult α :=
  match orderCancellationIDCheck orderCancellationID with
  | .ok _ => perform ()
  | .err e => .err e
  | .panicked m => .panicked m

/-! ## Monetary accessors

Amount arithmetic lives in the external `bojanz/currency` library (a
declared non-goal of the system), so `currency.NewAmount` appears as a
parameter `newAmount` with its Go signature shape, and `currency.Amount`
as an opaque record whose Go zero value is `Amount.zero`. -/

/-- Stand-in for the external library's `currency.Amount` value. -/
structure Amount where
  number : String
  currencyCode : String
deriving DecidableEq, Repr

/-- Go zero value `currency.Amount{}`. -/
def Amount.zero : Amount := ⟨"", ""⟩

/-- Offer, restricted to the raw monetary string fields its verified
accessors read. -/
structure Offer where
  RawTotalCurrency : String
  RawTotalAmount : String
  RawTaxAmount : String
  RawTaxCurrency : String
  RawBaseAmount : String
  RawBaseCurrency : String
deriving DecidableEq, Repr

/-- OrderCancellation, restricted to the raw monetary string fields its
verified accessor reads. -/
structure OrderCancellation where
  RawRefundCurrency : String
  RawRefundAmount : String
deriving DecidableEq, Repr

/-- OrderChangeOffer, restricted to the raw monetary string fields its
verified accessors read. -/
structure OrderChangeOffer where
  RawPenaltyTotalCurrency : String
  RawPenaltyTotalAmount : String
  RawNewTotalCurrency : String
  RawNewTotalAmount : String
  RawChangeTotalCurrency : String
  RawChangeTotalAmount : String
deriving DecidableEq, Repr

/-- Shared shape of every monetary accessor in the source: build the
amount from the two raw strings, falling back to the zero amount when the
external constructor rejects them. -/
def amountOrZero (newAmount : String → String → Except String Amount)
    (raw cur : String) : Amount :=
  match newAmount raw cur with
  | .error _ => Amount.zero
  | .ok a => a

/-- Embedded from the source: `Offer.TotalAmount`. -/
def Offer.TotalAmount (newAmount : String → String → Except String Amount)
    (o : Offer) : Amount :=
  amountOrZero newAmount o.RawTotalAmount o.RawTotalCurrency

/-- Embedded from the source: `Offer.BaseAmount`. -/
def Offer.BaseAmount (newAmount : String → String → Except String Amount)
    (o : Offer) : Amount :=
  amountOrZero newAmount o.RawBaseAmount o.RawBaseCurrency

/-- Embedded from the source: `Offer.TaxAmount`. -/
def Offer.TaxAmount (newAmount : String → String → Except String Amount)
    (o : Offer) : Amount :=
  amountOrZero newAmount o.RawTaxAmount o.RawTaxCurrency

/-- Embedded from the source: `OrderCancellation.RefundAmount`. -/
def OrderCancellation.RefundAmount
    (newAmount : String → String → Except String Amount)
    (o : OrderCancellation) : Amount :=
  amountOrZero newAmount o.RawRefundAmount o.RawRefundCurrency

/-- Embedded from the source: `OrderChangeOffer.ChangeTotalAmount`. -/
def OrderChangeOffer.ChangeTotalAmount
    (newAmount : String → String → Except String Amount)
    (o : OrderChangeOffer) : Amount :=
  amountOrZero newAmount o.RawChangeTotalAmount o.RawChangeTotalCurrency

/-- Embedded from the source: `OrderChangeOffer.NewTotalAmount`. -/
def OrderChangeOffer.NewTotalAmount
    (newAmount : String → String → Except String Amount)
    (o : OrderChangeOffer) : Amount :=
  amountOrZero newAmount o.RawNewTotalAmount o.RawNewTotalCurrency

/-- Embedded from the source: `OrderChangeOffer.PenaltyTotalAmount`. -/
def OrderChangeOffer.PenaltyTotalAmount
    (newAmount : String → String → Except String Amount)
    (o : OrderChangeOffer) : Amount :=
  amountOrZero newAmount o.RawPenaltyTotalAmount o.RawPenaltyTotalCurrency

/-! ## Concrete scenario values

Closed instantiations used by counterexamples and witnesses: finite
models of `strconv.Atoi` and `time.Parse` (matching Go's behavior on the
handful of strings each scenario mentions), fixed header sets, and a
sample external amount constructor. -/

/-- Finite model of `strconv.Atoi` on the header values the scenarios
use. -/
def cxAtoi : String → Except String Int := fun s =>
  if s = "100" then .ok 100
  else if s = "99" then .ok 99
  else .error "strconv.Atoi: parsing: invalid syntax"

/-- Finite model of `time.Parse` on the header values the scenarios use.
Go's parser maps `Mon, 1 Jan 0001 00:00:00 UTC` under the single-digit-day
layout to the zero `time.Time` (instant `0` here), and the RFC1123 date
`Thu, 02 Jan 2025 00:00:00 GMT` to a positive instant. -/
def cxParseTime : String → String → Except String Int := fun format v =>
  if format = flexDayFormat ∧ v = "Mon, 1 Jan 0001 00:00:00 UTC" then .ok 0
  else if format = rfc1123 ∧ v = "Thu, 02 Jan 2025 00:00:00 GMT" then .ok 1735776000
  else .error "parsing time: cannot parse"

/-- Headers whose `Ratelimit-Reset` value matches the second accepted
layout but denotes Go's zero time. -/
def zeroResetHeaders : RateHeaders :=
  ⟨"100", "99", "Mon, 1 Jan 0001 00:00:00 UTC", "Thu, 02 Jan 2025 00:00:00 GMT"⟩

/-- Headers that parse cleanly: reset and date both RFC1123. -/
def okResetHeaders : RateHeaders :=
  ⟨"100", "99", "Thu, 02 Jan 2025 00:00:00 GMT", "Thu, 02 Jan 2025 00:00:00 GMT"⟩

/-- Headers whose `Ratelimit-Reset` value matches no accepted layout. -/
def garbledResetHeaders : RateHeaders :=
  ⟨"100", "99", "not a date", "Thu, 02 Jan 2025 00:00:00 GMT"⟩

/-- An operation outcome that is a validation failure: nil result, a
non-nil error, and no HTTP request issued. -/
def OpOutcome.failedBeforeHTTP {α : Type} (o : OpOutcome α) : Prop :=
  o.result = none ∧ o.error ≠ none ∧ o.httpIssued = false

/-- Decoded `errors` array of the repository's `400-bad-request.json`
test fixture. -/
def badRequestErrors : List APIError :=
  [⟨"airline_error", "airline_unknown", "Airline unknown",
    "The airline responded with an unexpected error, please contact support"⟩]

/-- Sample model of the external amount constructor for witnesses: it
rejects an empty number string and otherwise packages the two strings. -/
def sampleNewAmount : String → String → Except String Amount := fun n cur =>
  if n = "" then .error "invalid number" else .ok ⟨n, cur⟩

/-! ## Helper lemmas -/

/-- Terminal failure: advancing never leaves the failed state and yields
no items. -/
theorem consume_failed {κ α : Type} (f : Option κ → Except String (PageResp κ α))
    (e : String) (n : Nat) (k : Nat) :
    consume f k ⟨.failed e, n⟩ = ([], ⟨.failed e, n⟩) := by
  induction k with
  | zero => rfl
  | succ k ih => simp [consume, advance, ih]

/-- Splitting a run of advances. -/
theorem consume_add {κ α : Type} (f : Option κ → Except String (PageResp κ α))
    (a b : Nat) (s : Iter κ α) :
    consume f (a + b) s
      = ((consume f a s).1 ++ (consume f b (consume f a s).2).1,
         (consume f b (consume f a s).2).2) := by
  induction a generalizing s with
  | zero => simp [consume]
  | succ a ih =>
    have hab : a + 1 + b = (a + b) + 1 := by omega
    rw [hab]
    simp [consume, ih, List.append_assoc]

/-- Draining a nonempty buffer yields exactly the buffered items and
lands in the follow-up state, with no fetch issued. -/
theorem consume_drain {κ α : Type} (f : Option κ → Except String (PageResp κ α))
    (buf : List α) (next : Option κ) (n : Nat) (h : buf ≠ []) :
    consume f buf.length ⟨.holding buf next, n⟩ = (buf, termState next n) := by
  induction buf with
  | nil => exact absurd rfl h
  | cons x rest ih =>
    cases rest with
    | nil => simp [consume, advance, deliver]
    | cons y r =>
      have hih := ih (by simp)
      simp only [List.length_cons] at hih
      rw [List.length_cons, consume]
      simp [advance, deliver, hih]

/-- Fetching one nonempty page and draining it yields the page and lands
in its follow-up state, at the cost of one fetch. -/
theorem consume_page {κ α : Type} (f : Option κ → Except String (PageResp κ α))
    (c : Option κ) (p : List α) (a : Option κ) (n : Nat)
    (hf : f c = .ok ⟨p, a⟩) (hp : p ≠ []) :
    consume f p.length ⟨.ready c, n⟩ = (p, termState a (n + 1)) := by
  cases p with
  | nil => exact absurd rfl hp
  | cons x rest =>
    cases rest with
    | nil => simp [consume, advance, hf, deliver]
    | cons y r =>
      have hd := consume_drain f (y :: r) a (n + 1) (by simp)
      simp only [List.length_cons] at hd
      rw [List.length_cons, consume]
      simp [advance, hf, deliver, hd]

/-- Running the whole remaining page chain: from a cursor that the
scenario server resolves to the nonempty page list `rem`, as many
advances as there are remaining items yield exactly those items and
exhaust the iterator, issuing one fetch per remaining page. -/
theorem consume_pages {α : Type} (pages : List (List α)) (rem : List (List α)) :
    rem ≠ [] → (∀ p ∈ rem, p ≠ []) →
    ∀ (c : Option (List (List α))) (n : Nat), c.getD pages = rem →
    consume (pagesFetch pages) rem.join.length ⟨.ready c, n⟩
      = (rem.join, ⟨.exhausted, n + rem.length⟩) := by
  induction rem with
  | nil => intro h; exact absurd rfl h
  | cons p rest ih =>
    intro _ hpp c n hc
    have hp : p ≠ [] := hpp p (by simp)
    cases rest with
    | nil =>
      have hf : pagesFetch pages c = .ok ⟨p, none⟩ := by
        simp [pagesFetch, hc]
      have := consume_page (pagesFetch pages) c p none n hf hp
      simpa [termState] using this
    | cons q qs =>
      have hf : pagesFetch pages c = .ok ⟨p, some (q :: qs)⟩ := by
        simp [pagesFetch, hc]
      have h1 := consume_page (pagesFetch pages) c p (some (q :: qs)) n hf hp
      have h2 := ih (by simp) (fun x hx => hpp x (by simp [hx]))
        (some (q :: qs)) (n + 1) rfl
      have hlen : ((p :: q :: qs).join).length
          = p.length + ((q :: qs).join).length := by
        simp [List.join]
      rw [hlen, consume_add, h1]
      simp only [termState] at h2 ⊢
      rw [h2]
      refine Prod.ext ?_ ?_
      · simp [List.join]
      · simp only [Iter.mk.injEq, List.length_cons]
        exact ⟨trivial, by omega⟩


/-- Against the failing server, any advance from the post-page-1 ready
state fails and then stays failed, yielding nothing. -/
theorem failConsume_ready {α : Type} (p1 : List α) (e : String) (k n : Nat) :
    consume (failFetch p1 e) k ⟨.ready (some ()), n⟩
      = ([], if k = 0 then ⟨.ready (some ()), n⟩ else ⟨.failed e, n + 1⟩) := by
  cases k with
  | zero => rfl
  | succ k => simp [consume, advance, failFetch, consume_failed]

/-- Against the failing server, draining a buffer from the holding state
yields its prefix of the requested length and nothing more, for every
number of advances. -/
theorem failConsume_drain {α : Type} (p1 : List α) (e : String) (k : Nat) :
    ∀ (buf : List α) (n : Nat),
    (consume (failFetch p1 e) k ⟨.holding buf (some ()), n⟩).1 = buf.take k := by
  induction k with
  | zero => intro buf n; rfl
  | succ k ih =>
    intro buf n
    cases buf with
    | nil =>
      simp [consume, advance, deliver, termState, failConsume_ready]
    | cons x rest =>
      cases rest with
      | nil => simp [consume, advance, deliver, termState, failConsume_ready]
      | cons y r => simp [consume, advance, deliver, ih]

/-- Reducing an amount accessor when the external constructor rejects the
raw strings. -/
theorem amountOrZero_error (newAmount : String → String → Except String Amount)
    (raw cur e : String) (h : newAmount raw cur = .error e) :
    amountOrZero newAmount raw cur = Amount.zero := by
  simp [amountOrZero, h]

/-- Reducing an amount accessor when the external constructor accepts the
raw strings. -/
theorem amountOrZero_ok (newAmount : String → String → Except String Amount)
    (raw cur : String) (a : Amount) (h : newAmount raw cur = .ok a) :
    amountOrZero newAmount raw cur = a := by
  simp [amountOrZero, h]

/-! ## Claim theorems -/

/-- C1 (code bug): for an order-cancellation ID that does not carry the
`ore_` tag and is shorter than 4 bytes — the empty string included — both
`ConfirmOrderCancellation` and `GetOrderCancellation` hit the
`orderCancellationID[:4]` slice in their error path and panic instead of
returning an error value; only invalid IDs of at least 4 bytes reach the
error return the claim describes. -/
theorem orderCancellationShortIDPanics :
    ConfirmOrderCancellation (fun _ => GoResult.ok (0 : Nat)) ""
      = .panicked "runtime error: slice bounds out of range"
    ∧ GetOrderCancellation (fun _ => GoResult.ok (0 : Nat)) "ab"
      = .panicked "runtime error: slice bounds out of range"
    ∧ ConfirmOrderCancellation (fun _ => GoResult.ok (0 : Nat)) "xyz_1234"
      = .err "orderCancellationID should have prefix ore_, got xyz_" := by
  exact ⟨rfl, rfl, rfl⟩

/-- C2: for N items split by the server across P nonempty cursor-chained
pages, N advances of the iterator yield exactly the N items in their
original order and leave the iterator exhausted having issued exactly P
page fetches; the (N+1)th advance reports no item; and no advance from a
state with unread buffered items ever issues a fetch. -/
theorem iterExhaustion {α : Type} (pages : List (List α))
    (h1 : pages ≠ []) (h2 : ∀ p ∈ pages, p ≠ []) :
    (consume (pagesFetch pages) pages.join.length Iter.init).1 = pages.join
    ∧ (consume (pagesFetch pages) pages.join.length Iter.init).2
        = ⟨.exhausted, pages.length⟩
    ∧ (advance (pagesFetch pages)
        (consume (pagesFetch pages) pages.join.length Iter.init).2).1 = none
    ∧ ∀ (g : Option (List (List α)) → Except String (PageResp (List (List α)) α))
        (s : Iter (List (List α)) α),
        s.hasBuffered → (advance g s).2.fetches = s.fetches := by
  have key := consume_pages pages pages h1 h2 none 0 rfl
  refine ⟨by rw [Iter.init, key], by rw [Iter.init, key]; simp, ?_, ?_⟩
  · rw [Iter.init, key]
    simp [advance]
  · intro g s hs
    obtain ⟨x, rest, next, hstat⟩ := hs
    obtain ⟨st, n⟩ := s
    simp only at hstat
    subst hstat
    cases hre : rest.isEmpty <;> cases next <;>
      simp [advance, deliver, termState, hre]

/-- C6: when the second page fetch fails, the iterator still delivers all
of page 1 in order first (and never any item beyond page 1, whatever the
number of advances), the failure-reporting advance yields no item and
moves to the failed state holding the fetch error, the error accessor
returns that error, and every later advance yields nothing and stays
failed. -/
theorem iterSecondPageFailure {α : Type} (p1 : List α) (e : String)
    (hp : p1 ≠ []) :
    (∀ k, (consume (failFetch p1 e) k Iter.init).1 = p1.take k)
    ∧ (consume (failFetch p1 e) p1.length Iter.init).2 = ⟨.ready (some ()), 1⟩
    ∧ advance (failFetch p1 e) ⟨.ready (some ()), 1⟩ = (none, ⟨.failed e, 2⟩)
    ∧ Iter.errOut (⟨.failed e, 2⟩ : Iter Unit α) = some e
    ∧ ∀ k, consume (failFetch p1 e) k ⟨.failed e, 2⟩ = ([], ⟨.failed e, 2⟩) := by
  have hpage := consume_page (failFetch p1 e) none p1 (some ()) 0 rfl hp
  refine ⟨?_, ?_, ?_, rfl, fun k => consume_failed _ e 2 k⟩
  · intro k
    cases k with
    | zero => simp [consume]
    | succ k =>
      cases p1 with
      | nil => exact absurd rfl hp
      | cons x rest =>
        have hd := failConsume_drain (x :: rest) e (k + 1) (x :: rest) 1
        calc (consume (failFetch (x :: rest) e) (k + 1) Iter.init).1
            = (consume (failFetch (x :: rest) e) (k + 1)
                ⟨.holding (x :: rest) (some ()), 1⟩).1 := by
              simp [consume, advance, failFetch, Iter.init]
          _ = (x :: rest).take (k + 1) := hd
  · rw [Iter.init, hpage]
    rfl
  · simp [advance, failFetch]

/-- Witness for the exhaustion theorem: 5 items split across 3 pages. -/
theorem iterExhaustionWitness :
    (consume (pagesFetch [[1, 2], [3], [4, 5]]) 5 Iter.init).1 = [1, 2, 3, 4, 5]
    ∧ (consume (pagesFetch [[1, 2], [3], [4, 5]]) 5 Iter.init).2
        = ⟨.exhausted, 3⟩ := by
  have h := iterExhaustion [[1, 2], [3], [4, 5]] (by decide) (by decide)
  exact ⟨h.1, h.2.1⟩

/-- Witness for the second-page-failure theorem: page 1 is `[1, 2, 3]`. -/
theorem iterSecondPageFailureWitness :
    (consume (failFetch [1, 2, 3] "network down") 5 Iter.init).1 = [1, 2, 3]
    ∧ advance (failFetch [1, 2, 3] "network down") ⟨.ready (some ()), 1⟩
        = (none, ⟨.failed "network down", 2⟩)
    ∧ Iter.errOut (⟨.failed "network down", 2⟩ : Iter Unit Nat)
        = some "network down" := by
  have h := iterSecondPageFailure [1, 2, 3] "network down" (by decide)
  exact ⟨h.1 5, h.2.2.1, h.2.2.2.1⟩

/-- C3: a 2xx response whose `data` field decodes for the target schema
makes `Single` return exactly the decoded value with no error; a non-2xx
response makes it return a structured error carrying the response status
whose taxonomy type and code match `errors[0]` when the array is present
and non-empty, and the synthesized generic error otherwise. -/
theorem singleStatusRouting {τ : Type} (r : Response τ) (v : τ) :
    (200 ≤ r.status → r.status ≤ 299 → r.data = some v → Single r = .ok v)
    ∧ (¬ (200 ≤ r.status ∧ r.status ≤ 299) →
        ∃ d : DuffelError, Single r = .error (.api d)
          ∧ d.statusCode = r.status
          ∧ (∀ e rest, r.errors = some (e :: rest) →
              d.IsType e.typ = true ∧ d.IsCode e.code = true)
          ∧ ((r.errors = none ∨ r.errors = some []) →
              d.primary = syntheticError)) := by
  constructor
  · intro h1 h2 hd
    simp [Single, h1, h2, hd]
  · intro hout
    refine ⟨decodeError r.status r.errors, by simp [Single, hout], ?_, ?_, ?_⟩
    · cases herr : r.errors with
      | none => simp [decodeError]
      | some l => cases l <;> simp [decodeError]
    · intro e rest herr
      simp [decodeError, herr, DuffelError.IsType, DuffelError.IsCode,
        DuffelError.primary]
    · intro herr
      rcases herr with h | h <;> simp [decodeError, h, DuffelError.primary]

/-- Witness for the `Single` routing theorem: a 200 response carrying
`data = 7`, and a 404 response carrying one error object. -/
theorem singleStatusRoutingWitness :
    Single (⟨200, some 7, none⟩ : Response Nat) = .ok 7
    ∧ ∃ d : DuffelError,
        Single (⟨404, none, some [⟨"t", "c", "ti", "m"⟩]⟩ : Response Nat)
          = .error (.api d) ∧ d.IsType "t" = true ∧ d.IsCode "c" = true := by
  constructor
  · exact (singleStatusRouting ⟨200, some 7, none⟩ 7).1 (by decide) (by decide) rfl
  · obtain ⟨d, hs, _, hm, _⟩ :=
      (singleStatusRouting (⟨404, none, some [⟨"t", "c", "ti", "m"⟩]⟩ : Response Nat) 0).2
        (by decide)
    obtain ⟨ht, hc⟩ := hm ⟨"t", "c", "ti", "m"⟩ [] rfl
    exact ⟨d, hs, ht, hc⟩

/-- C4 counterexample: headers whose `Ratelimit-Reset` value does match
an accepted layout (the single-digit-day one) and whose `Date` header
parses, yet `parseRateLimit` returns an error instead of the parsed
values, because the parsed reset instant is Go's zero time and the
source uses `IsZero` as its "no format matched" sentinel. -/
theorem parseRateLimitZeroResetCounterexample :
    (cxParseTime flexDayFormat zeroResetHeaders.ratelimitReset = .ok 0
      ∧ flexDayFormat ∈ headerTimeFormats)
    ∧ cxAtoi zeroResetHeaders.ratelimitLimit = .ok 100
    ∧ cxAtoi zeroResetHeaders.ratelimitRemaining = .ok 99
    ∧ cxParseTime rfc1123 zeroResetHeaders.date = .ok 1735776000
    ∧ parseRateLimit cxAtoi cxParseTime zeroResetHeaders
        = .error ("failed to parse Ratelimit-Reset header: " ++
            "Mon, 1 Jan 0001 00:00:00 UTC" ++ ", no known date formats match") := by
  refine ⟨⟨by decide, by decide⟩, by decide, by decide, by decide, by decide⟩

/-- C4 (amended): when both counting headers parse, the first accepted
layout that parses `Ratelimit-Reset` yields a nonzero instant `t`, and
the `Date` header parses to `d`, `parseRateLimit` returns the header
values with `ResetAt = t` and `Period = t - d`. -/
theorem parseRateLimitParsedHeaders (atoi : String → Except String Int)
    (parseTime : String → String → Except String Int) (h : RateHeaders)
    (l r t d : Int)
    (hl : atoi h.ratelimitLimit = .ok l)
    (hr : atoi h.ratelimitRemaining = .ok r)
    (ht : (headerTimeFormats.findSome? fun format =>
        (parseTime format h.ratelimitReset).toOption) = some t)
    (hnz : t ≠ 0)
    (hd : parseTime rfc1123 h.date = .ok d) :
    parseRateLimit atoi parseTime h = .ok ⟨l, r, t, t - d⟩ := by
  simp [parseRateLimit, hl, hr, ht, hnz, hd]

/-- Witness for the amended rate-limit theorem: cleanly parsing headers. -/
theorem parseRateLimitParsedHeadersWitness :
    parseRateLimit cxAtoi cxParseTime okResetHeaders
      = .ok ⟨100, 99, 1735776000, 0⟩ := by
  have h := parseRateLimitParsedHeaders cxAtoi cxParseTime okResetHeaders
    100 99 1735776000 1735776000 (by decide) (by decide) (by decide)
    (by decide) (by decide)
  simpa using h

/-- C5: when the `Ratelimit-Reset` header matches no accepted layout, or
either counting header fails to parse (absent headers read as the empty
string and fail), `parseRateLimit` returns an error, and the bookkeeping
step keeps the previously stored state unchanged while the enclosing
call still succeeds. -/
theorem rateLimitMalformedKeepsState (atoi : String → Except String Int)
    (parseTime : String → String → Except String Int) (h : RateHeaders)
    (prev : Option RateLimit)
    (hm : (∃ e, atoi h.ratelimitLimit = .error e)
        ∨ (∃ e, atoi h.ratelimitRemaining = .error e)
        ∨ (headerTimeFormats.findSome? fun format =>
            (parseTime format h.ratelimitReset).toOption) = none) :
    (∃ e, parseRateLimit atoi parseTime h = .error e)
    ∧ updateRateLimitState atoi parseTime h prev = (prev, true) := by
  have herr : ∃ e, parseRateLimit atoi parseTime h = .error e := by
    rcases hm with ⟨e, he⟩ | ⟨e, he⟩ | hn
    · exact ⟨e, by simp [parseRateLimit, he]⟩
    · cases hl : atoi h.ratelimitLimit with
      | error e2 => exact ⟨e2, by simp [parseRateLimit, hl]⟩
      | ok l => exact ⟨e, by simp [parseRateLimit, hl, he]⟩
    · cases hl : atoi h.ratelimitLimit with
      | error e2 => exact ⟨e2, by simp [parseRateLimit, hl]⟩
      | ok l =>
        cases hr : atoi h.ratelimitRemaining with
        | error e2 => exact ⟨e2, by simp [parseRateLimit, hl, hr]⟩
        | ok r =>
          exact ⟨"failed to parse Ratelimit-Reset header: " ++ h.ratelimitReset ++
            ", no known date formats match", by simp [parseRateLimit, hl, hr, hn]⟩
  obtain ⟨e, he⟩ := herr
  exact ⟨⟨e, he⟩, by simp [updateRateLimitState, he]⟩

/-- Witness for the malformed-reset theorem: a reset header matching no
layout leaves the stored state `some ⟨100, 5, 17, 3⟩` untouched. -/
theorem rateLimitMalformedKeepsStateWitness :
    (∃ e, parseRateLimit cxAtoi cxParseTime garbledResetHeaders = .error e)
    ∧ updateRateLimitState cxAtoi cxParseTime garbledResetHeaders
        (some ⟨100, 5, 17, 3⟩) = (some ⟨100, 5, 17, 3⟩, true) :=
  rateLimitMalformedKeepsState cxAtoi cxParseTime garbledResetHeaders
    (some ⟨100, 5, 17, 3⟩) (Or.inr (Or.inr (by decide)))

/-- C7: with no remaining budget and the reset instant still ahead, the
pre-call gate delays the caller by exactly the time left until the reset
instant (a positive delay) and the call proceeds at that instant; with
remaining budget the gate introduces no delay. -/
theorem rateLimiterGate (rl : RateLimit) (now : Int) :
    (rl.remaining = 0 → now < rl.resetAt →
      rateLimitDelay rl now = rl.resetAt - now
      ∧ 0 < rateLimitDelay rl now
      ∧ proceedAt rl now = rl.resetAt)
    ∧ (0 < rl.remaining →
      rateLimitDelay rl now = 0 ∧ proceedAt rl now = now) := by
  constructor
  · intro h0 hlt
    have hd : rateLimitDelay rl now = rl.resetAt - now := by
      simp [rateLimitDelay, h0, hlt]
    exact ⟨hd, by omega, by simp [proceedAt, hd]⟩
  · intro hpos
    have hd : rateLimitDelay rl now = 0 := by
      have : ¬ (rl.remaining = 0 ∧ now < rl.resetAt) := by
        intro hc
        omega
      simp [rateLimitDelay, this]
    exact ⟨hd, by simp [proceedAt, hd]⟩

/-- Witness for the rate-limiter gate: a depleted window resetting at
instant 50 delays a call at instant 0 by 50; a window with budget left
introduces no delay. -/
theorem rateLimiterGateWitness :
    (rateLimitDelay ⟨300, 0, 50, 60⟩ 0 = 50
      ∧ proceedAt ⟨300, 0, 50, 60⟩ 0 = 50)
    ∧ (rateLimitDelay ⟨300, 3, 50, 60⟩ 0 = 0
      ∧ proceedAt ⟨300, 3, 50, 60⟩ 0 = 0) := by
  have h1 := (rateLimiterGate ⟨300, 0, 50, 60⟩ 0).1 rfl (by decide)
  have h2 := (rateLimiterGate ⟨300, 3, 50, 60⟩ 0).2 (by decide)
  exact ⟨⟨by simpa using h1.1, by simpa using h1.2.2⟩, h2⟩

/-- C8: the end-to-end error scenario of the repository's client test.
With `ReturnOffers = false` the offer-request payload encodes the query
parameter `return_offers=false`; a 400 response carrying the fixture's
`airline_error`/`airline_unknown` error object produces no value and a
structured error classified as `AirlineError` and `AirlineUnknown` that
renders to the fixed human message the test pins down. -/
theorem clientErrorScenario :
    OfferRequestInput.Encode ⟨false⟩ [] = [("return_offers", "false")]
    ∧ Single (⟨400, none, some badRequestErrors⟩ : Response Unit)
        = .error (.api ⟨400, badRequestErrors⟩)
    ∧ DuffelError.IsType ⟨400, badRequestErrors⟩ AirlineError = true
    ∧ DuffelError.IsCode ⟨400, badRequestErrors⟩ AirlineUnknown = true
    ∧ DuffelError.render ⟨400, badRequestErrors⟩
        = "duffel: The airline responded with an unexpected error, please contact support" := by
  refine ⟨rfl, by decide, by decide, by decide, rfl⟩

/-- C9: an ID that is empty or does not carry the operation's required
resource tag makes every ID-validated operation fail with a nil result
and a non-nil error before any HTTP request is issued, and makes
`ListOffers` return an already-failed iterator (no fetch issued) whose
error accessor reports the validation error. -/
theorem idValidatedOpsFailFast (α κ : Type) (perform : Unit → α)
    (id : String) :
    ((id = "" ∨ goHasPrefix id orderChangeRequestIDPfx = false) →
      (GetOrderChangeRequest perform id).failedBeforeHTTP
      ∧ (ConfirmOrderChange perform id).failedBeforeHTTP)
    ∧ ((id = "" ∨ goHasPrefix id orderChangeOfferIDPfx = false) →
      (CreatePendingOrderChange perform id).failedBeforeHTTP
      ∧ (GetOrderChangeOffer perform id).failedBeforeHTTP)
    ∧ ((id = "" ∨ goHasPrefix id orderChangeIDPfx = false) →
      (GetOrderChange perform id).failedBeforeHTTP)
    ∧ ((id = "" ∨ goHasPrefix id offerRequestIDPfx = false) →
      (ListOffers κ α id).fetches = 0
      ∧ ∃ e, (ListOffers κ α id).errOut = some e
          ∧ (ListOffers κ α id).status = .failed e) := by
  have hval : ∀ pfx : String, (id = "" ∨ goHasPrefix id pfx = false) →
      ∃ e, validateID id pfx = some e := by
    intro pfx hbad
    rcases hbad with h | h
    · exact ⟨"id param is required", by simp [validateID, h]⟩
    · by_cases he : id = ""
      · exact ⟨"id param is required", by simp [validateID, he]⟩
      · exact ⟨"id should begin with " ++ pfx, by simp [validateID, he, h]⟩
  have hop : ∀ pfx : String, (id = "" ∨ goHasPrefix id pfx = false) →
      (runIDValidated pfx perform id).failedBeforeHTTP := by
    intro pfx hbad
    obtain ⟨e, he⟩ := hval pfx hbad
    simp [runIDValidated, he, OpOutcome.failedBeforeHTTP]
  refine ⟨fun hbad => ⟨hop _ hbad, hop _ hbad⟩,
    fun hbad => ⟨hop _ hbad, hop _ hbad⟩, fun hbad => hop _ hbad, ?_⟩
  intro hbad
  rcases hbad with h | h
  · subst h
    exact ⟨rfl, "offerRequestId param is required", rfl, rfl⟩
  · by_cases he : id = ""
    · subst he
      exact ⟨rfl, "offerRequestId param is required", rfl, rfl⟩
    · have hL : ListOffers κ α id
          = ErrIter κ α ("offerRequestId should begin with " ++ offerRequestIDPfx) := by
        simp [ListOffers, he, h]
      rw [hL]
      exact ⟨rfl, "offerRequestId should begin with " ++ offerRequestIDPfx, rfl, rfl⟩

/-- Witness for the fail-fast theorem at the empty ID. -/
theorem idValidatedOpsFailFastWitness :
    ((GetOrderChangeRequest (fun _ => (0 : Nat)) "").failedBeforeHTTP
      ∧ (ConfirmOrderChange (fun _ => (0 : Nat)) "").failedBeforeHTTP)
    ∧ ((CreatePendingOrderChange (fun _ => (0 : Nat)) "").failedBeforeHTTP
      ∧ (GetOrderChangeOffer (fun _ => (0 : Nat)) "").failedBeforeHTTP)
    ∧ (GetOrderChange (fun _ => (0 : Nat)) "").failedBeforeHTTP
    ∧ ((ListOffers Unit Nat "").fetches = 0
      ∧ ∃ e, (ListOffers Unit Nat "").errOut = some e
          ∧ (ListOffers Unit Nat "").status = .failed e) := by
  have h := idValidatedOpsFailFast Nat Unit (fun _ => (0 : Nat)) ""
  exact ⟨h.1 (Or.inl rfl), h.2.1 (Or.inl rfl), h.2.2.1 (Or.inl rfl),
    h.2.2.2 (Or.inl rfl)⟩

/-- C10: every monetary accessor is total over its raw string fields —
when the external constructor rejects the stored raw amount/currency
pair the accessor returns the zero amount value, and when it accepts the
pair the accessor returns exactly the amount constructed from those two
strings. -/
theorem amountAccessorsTotal
    (newAmount : String → String → Except String Amount)
    (o : Offer) (c : OrderCancellation) (oc : OrderChangeOffer)
    (a : Amount) (e : String) :
    ((newAmount o.RawTotalAmount o.RawTotalCurrency = .error e →
        o.TotalAmount newAmount = Amount.zero)
      ∧ (newAmount o.RawTotalAmount o.RawTotalCurrency = .ok a →
        o.TotalAmount newAmount = a))
    ∧ ((newAmount o.RawBaseAmount o.RawBaseCurrency = .error e →
        o.BaseAmount newAmount = Amount.zero)
      ∧ (newAmount o.RawBaseAmount o.RawBaseCurrency = .ok a →
        o.BaseAmount newAmount = a))
    ∧ ((newAmount o.RawTaxAmount o.RawTaxCurrency = .error e →
        o.TaxAmount newAmount = Amount.zero)
      ∧ (newAmount o.RawTaxAmount o.RawTaxCurrency = .ok a →
        o.TaxAmount newAmount = a))
    ∧ ((newAmount c.RawRefundAmount c.RawRefundCurrency = .error e →
        c.RefundAmount newAmount = Amount.zero)
      ∧ (newAmount c.RawRefundAmount c.RawRefundCurrency = .ok a →
        c.RefundAmount newAmount = a))
    ∧ ((newAmount oc.RawChangeTotalAmount oc.RawChangeTotalCurrency = .error e →
        oc.ChangeTotalAmount newAmount = Amount.zero)
      ∧ (newAmount oc.RawChangeTotalAmount oc.RawChangeTotalCurrency = .ok a →
        oc.ChangeTotalAmount newAmount = a))
    ∧ ((newAmount oc.RawNewTotalAmount oc.RawNewTotalCurrency = .error e →
        oc.NewTotalAmount newAmount = Amount.zero)
      ∧ (newAmount oc.RawNewTotalAmount oc.RawNewTotalCurrency = .ok a →
        oc.NewTotalAmount newAmount = a))
    ∧ ((newAmount oc.RawPenaltyTotalAmount oc.RawPenaltyTotalCurrency = .error e →
        oc.PenaltyTotalAmount newAmount = Amount.zero)
      ∧ (newAmount oc.RawPenaltyTotalAmount oc.RawPenaltyTotalCurrency = .ok a →
        oc.PenaltyTotalAmount newAmount = a)) := by
  refine ⟨⟨?_, ?_⟩, ⟨?_, ?_⟩, ⟨?_, ?_⟩, ⟨?_, ?_⟩, ⟨?_, ?_⟩, ⟨?_, ?_⟩, ?_, ?_⟩ <;>
    intro h <;>
    first
      | exact amountOrZero_error newAmount _ _ e h
      | exact amountOrZero_ok newAmount _ _ a h

/-- Witness for the accessor totality theorem: a rejected refund pair
falls back to the zero amount, an accepted total pair is packaged as
given. -/
theorem amountAccessorsTotalWitness :
    OrderCancellation.RefundAmount sampleNewAmount ⟨"USD", ""⟩ = Amount.zero
    ∧ Offer.TotalAmount sampleNewAmount
        ⟨"USD", "120.00", "20.00", "USD", "100.00", "USD"⟩
      = ⟨"120.00", "USD"⟩ := by
  have h := amountAccessorsTotal sampleNewAmount
    ⟨"USD", "120.00", "20.00", "USD", "100.00", "USD"⟩ ⟨"USD", ""⟩
    ⟨"", "", "", "", "", ""⟩ ⟨"120.00", "USD"⟩ "invalid number"
  exact ⟨h.2.2.2.1.1 (by decide), h.1.2 (by decide)⟩

end Duffel
